import Mathlib

/-
Shallow embedding of `ros_arduino_python/src/ros_arduino_python/arduino_driver.py`
(class `Arduino`), a host-side serial driver for the ROSArduinoBridge firmware.

Modelling conventions:
- Python strings are Lean `String`s; the helpers below reproduce the exact
  semantics of the Python 2 builtins the driver uses (`str.strip('\n')`,
  `str.split()` with no argument, `int(...)`, parseability of `float(...)`).
- One command/response exchange against the external serial transport is
  modelled by an `Outcome`: either `readline` returned a line, or the read
  timed out (pyserial's `readline` then returns the partial data received,
  without raising), or an exception was raised by the underlying write/read.
- Each driver method becomes a function from its arguments and the transport
  `Outcome` to an `OpTrace`: the Python return value or propagated exception,
  the state of `self.mutex` when control returns to the caller (the lock is
  assumed free on entry), the list of completed serial writes, and the number
  of reads performed.
- Python `None`/bool return values of the ack-style methods are `PyVal`;
  numeric attributes used by `drive_m_per_s` are modelled as exact rationals,
  with `math.pi` replaced by the exact rational value of the IEEE-754 double
  that Python's `math.pi` denotes.
-/

/-- The characters Python treats as whitespace in `str.split()` / numeric parsing. -/
def isPyWS (c : Char) : Bool :=
  c == ' ' || c == '\t' || c == '\n' || c == '\r' || c == '\x0b' || c == '\x0c'

/-- Remove the characters satisfying `p` from both ends of a character list. -/
def stripChars (p : Char → Bool) (l : List Char) : List Char :=
  ((l.dropWhile p).reverse.dropWhile p).reverse

/-- Python `s.strip('\n')`: remove newline characters from both ends of `s`. -/
def stripNL (s : String) : String :=
  ⟨stripChars (fun c => c == '\n') s.data⟩

/-- Strip Python whitespace from both ends (used by `int()` / `float()`). -/
def pyStripWS (l : List Char) : List Char :=
  stripChars isPyWS l

/-- Worker for `pySplit`: current accumulated token is `acc` (reversed). -/
def pySplitAux : List Char → List Char → List String
  | [], [] => []
  | [], acc => [⟨acc.reverse⟩]
  | c :: rest, acc =>
    if isPyWS c then
      match acc with
      | [] => pySplitAux rest []
      | _ => ⟨acc.reverse⟩ :: pySplitAux rest []
    else
      pySplitAux rest (c :: acc)

/-- Python `s.split()` with no argument: split on runs of whitespace,
discarding empty tokens. -/
def pySplit (s : String) : List String :=
  pySplitAux s.data []

/-- Value of a nonempty all-digit character list, `none` otherwise. -/
def digitsVal (l : List Char) : Option Nat :=
  if l = [] then none
  else if l.all Char.isDigit then
    some (l.foldl (fun acc c => acc * 10 + (c.toNat - 48)) 0)
  else none

/-- Python 2 `int(s)` in base 10: optional surrounding whitespace, an optional
sign, then one or more digits; `none` when `int` would raise `ValueError`. -/
def pyInt (s : String) : Option Int :=
  match pyStripWS s.data with
  | [] => none
  | c :: rest =>
    if c == '-' then (digitsVal rest).map (fun n => -(n : Int))
    else if c == '+' then (digitsVal rest).map (fun n => (n : Int))
    else (digitsVal (c :: rest)).map (fun n => (n : Int))

/-- Optional exponent part of a Python float literal (must consume the rest). -/
def pyFloatExp : List Char → Bool
  | [] => true
  | c :: rest =>
    if c == 'e' || c == 'E' then
      let digits := match rest with
        | c2 :: r => if c2 == '+' || c2 == '-' then r else c2 :: r
        | [] => []
      decide (digits ≠ []) && digits.all Char.isDigit
    else false

/-- Mantissa (after the optional sign) of a Python float literal. -/
def pyFloatNumber (l : List Char) : Bool :=
  let s1 := l.span Char.isDigit
  match s1.2 with
  | '.' :: r2 =>
    let s2 := r2.span Char.isDigit
    if s1.1 = [] ∧ s2.1 = [] then false else pyFloatExp s2.2
  | _ => if s1.1 = [] then false else pyFloatExp s1.2

/-- Whether Python 2 `float(s)` succeeds: optional surrounding whitespace,
optional sign, then a number, `inf`, `infinity` or `nan` (case-insensitive). -/
def isPyFloatTok (s : String) : Bool :=
  let l := pyStripWS s.data
  let body := match l with
    | c :: rest => if c == '+' || c == '-' then rest else c :: rest
    | [] => []
  let low := body.map Char.toLower
  if low = ['i', 'n', 'f'] ∨ low = ['i', 'n', 'f', 'i', 'n', 'i', 't', 'y'] ∨
      low = ['n', 'a', 'n'] then
    true
  else
    pyFloatNumber body

/-- Python `map(int, values)`: `some` of the parsed list when every token
parses, `none` when `int` raises `ValueError` on some token. -/
def mapPyInt : List String → Option (List Int)
  | [] => some []
  | t :: ts =>
    match pyInt t, mapPyInt ts with
    | some i, some is => some (i :: is)
    | _, _ => none

namespace Arduino

/-- Python exceptions that the driver code can propagate. -/
inductive PyExn where
  | serialExn
  | valueError
  | attributeError
deriving DecidableEq

/-- Result of a Python call: a returned value or a propagated exception. -/
inductive PyResult (α : Type) where
  | val (a : α)
  | exn (e : PyExn)
deriving DecidableEq

/-- Outcome of the single write+read exchange against the external serial
transport: `reply line` when `readline` returned `line` within the timeout;
`timeout part` when the configured read timeout expired and pyserial's
`readline` returned the partial data `part` received so far (no exception is
raised on a read timeout); `readExn` / `writeExn` when the underlying
read / write raised a serial exception (e.g. a write timeout or device error). -/
inductive Outcome where
  | reply (line : String)
  | timeout (part : String)
  | readExn
  | writeExn
deriving DecidableEq

/-- Observable trace of one driver method call: the Python result, whether
`self.mutex` is still held when control returns to the caller (the lock is
free on entry), the completed serial writes, and the number of reads. -/
structure OpTrace (α : Type) where
  result : PyResult α
  lockedAfter : Bool
  writes : List String
  reads : Nat
deriving DecidableEq

/-- Python `None` / bool values returned by the ack-style methods. -/
inductive PyVal where
  | vNone
  | vBool (b : Bool)
deriving DecidableEq

/-- `Arduino.execute(cmd, max_attempts=5)`:
`self.mutex.acquire(); self.serial_port.write(cmd + '\r');
value = self.serial_port.readline().strip('\n'); self.mutex.release();
return value`.  There is no `try/finally`: when the write or the read raises,
the exception propagates with the mutex still held.  `max_attempts` is
accepted but never used by the source. -/
def execute (cmd : String) (max_attempts : Nat) (o : Outcome) : OpTrace String :=
  match o with
  | .writeExn => ⟨.exn .serialExn, true, [], 0⟩
  | .readExn => ⟨.exn .serialExn, true, [cmd ++ "\r"], 1⟩
  | .reply line => ⟨.val (stripNL line), false, [cmd ++ "\r"], 1⟩
  | .timeout part => ⟨.val (stripNL part), false, [cmd ++ "\r"], 1⟩

/-- `Arduino.execute_array(cmd, max_attempts=5)`:
`values = self.execute(cmd, max_attempts).split(); return values`. -/
def execute_array (cmd : String) (max_attempts : Nat) (o : Outcome) :
    OpTrace (List String) :=
  let t := execute cmd max_attempts o
  ⟨match t.result with
    | .val v => .val (pySplit v)
    | .exn e => .exn e,
   t.lockedAfter, t.writes, t.reads⟩

/-- `Arduino.execute_ack(cmd, max_attempts=5)`:
`ack = self.execute(cmd, max_attempts); return ack == 'OK'`. -/
def execute_ack (cmd : String) (max_attempts : Nat) (o : Outcome) :
    OpTrace Bool :=
  let t := execute cmd max_attempts o
  ⟨match t.result with
    | .val v => .val (v == "OK")
    | .exn e => .exn e,
   t.lockedAfter, t.writes, t.reads⟩

/-- Common shape of the methods `return self.execute_ack(cmd)` (the default
`max_attempts=5` is used), with the Python bool wrapped as a `PyVal`. -/
def ack_op (cmd : String) (o : Outcome) : OpTrace PyVal :=
  let t := execute_ack cmd 5 o
  ⟨match t.result with
    | .val b => .val (.vBool b)
    | .exn e => .exn e,
   t.lockedAfter, t.writes, t.reads⟩

/-- `reset_encoders(self)`: `return self.execute_ack('r')`. -/
def reset_encoders (o : Outcome) : OpTrace PyVal :=
  ack_op "r" o

/-- `drive(self, right, left)`: `return self.execute_ack('m %d %d' %(right, left))`. -/
def drive (right left : Int) (o : Outcome) : OpTrace PyVal :=
  ack_op ("m " ++ toString right ++ " " ++ toString left) o

/-- `stop(self)`: `self.drive(0, 0)` — the ack is computed but the method
itself returns `None`. -/
def stop (o : Outcome) : OpTrace PyVal :=
  let t := drive 0 0 o
  ⟨match t.result with
    | .val _ => .val .vNone
    | .exn e => .exn e,
   t.lockedAfter, t.writes, t.reads⟩

/-- `analog_pin_mode(self, pin, mode)`: `return self.execute_ack('c A%d %d' %(pin, mode))`. -/
def analog_pin_mode (pin mode : Int) (o : Outcome) : OpTrace PyVal :=
  ack_op ("c A" ++ toString pin ++ " " ++ toString mode) o

/-- `analog_write(self, pin, value)`: `return self.execute_ack('x %d %d' %(pin, value))`. -/
def analog_write (pin value : Int) (o : Outcome) : OpTrace PyVal :=
  ack_op ("x " ++ toString pin ++ " " ++ toString value) o

/-- `digital_pin_mode(self, pin, mode)`: `return self.execute_ack('c %d %d' %(pin, mode))`. -/
def digital_pin_mode (pin mode : Int) (o : Outcome) : OpTrace PyVal :=
  ack_op ("c " ++ toString pin ++ " " ++ toString mode) o

/-- `digital_write(self, pin, value)`: `return self.execute_ack('w %d %d' %(pin, value))`. -/
def digital_write (pin value : Int) (o : Outcome) : OpTrace PyVal :=
  ack_op ("w " ++ toString pin ++ " " ++ toString value) o

/-- `config_servo(self, pin, step_delay)`: `return self.execute_ack('j %d %u' %(pin, step_delay))`
(Python 2 `%u` formats exactly like `%d`). -/
def config_servo (pin step_delay : Int) (o : Outcome) : OpTrace PyVal :=
  ack_op ("j " ++ toString pin ++ " " ++ toString step_delay) o

/-- `servo_write(self, id, pos)`: `return self.execute_ack('s %d %d' %(id, pos))`. -/
def servo_write (sid pos : Int) (o : Outcome) : OpTrace PyVal :=
  ack_op ("s " ++ toString sid ++ " " ++ toString pos) o

/-- `set_servo_delay(self, id, delay)`: `return self.execute_ack('v %d %d' %(id, delay))`. -/
def set_servo_delay (sid dly : Int) (o : Outcome) : OpTrace PyVal :=
  ack_op ("v " ++ toString sid ++ " " ++ toString dly) o

/-- `attach_servo(self, id)`: `return self.execute_ack('y %d' %id)`. -/
def attach_servo (sid : Int) (o : Outcome) : OpTrace PyVal :=
  ack_op ("y " ++ toString sid) o

/-- `detach_servo(self, id)`: `return self.execute_ack('z %d' %id)`. -/
def detach_servo (sid : Int) (o : Outcome) : OpTrace PyVal :=
  ack_op ("z " ++ toString sid) o

/-- `update_pid(self, Kp, Kd, Ki, Ko)`:
`cmd = 'u ' + str(Kp) + ':' + str(Kd) + ':' + str(Ki) + ':' + str(Ko);
self.execute_ack(cmd)` — the ack is computed but the method returns `None`. -/
def update_pid (Kp Kd Ki Ko : Int) (o : Outcome) : OpTrace PyVal :=
  let cmd := "u " ++ toString Kp ++ ":" ++ toString Kd ++ ":" ++ toString Ki
      ++ ":" ++ toString Ko
  let t := execute_ack cmd 5 o
  ⟨match t.result with
    | .val _ => .val .vNone
    | .exn e => .exn e,
   t.lockedAfter, t.writes, t.reads⟩

/-- Decoding step of `get_encoder_counts` applied to the token list:
`if len(values) != 2: print ...; raise SerialException` (the `return None`
after the `raise` is dead code), `else: return map(int, values)` — where a
non-integer token makes `int` raise `ValueError`, uncaught. -/
def enc_decode (values : List String) : PyResult (List Int) :=
  if values.length ≠ 2 then .exn .serialExn
  else
    match mapPyInt values with
    | some ints => .val ints
    | none => .exn .valueError

/-- `get_encoder_counts(self)`: `values = self.execute_array('e')`, then
arity check and integer decoding as in `enc_decode`. -/
def get_encoder_counts (o : Outcome) : OpTrace (List Int) :=
  let t := execute_array "e" 5 o
  ⟨match t.result with
    | .val values => enc_decode values
    | .exn e => .exn e,
   t.lockedAfter, t.writes, t.reads⟩

/-- Decoding step of `get_imu_data` applied to the token list:
`if len(values) != 12: print "IMU data incomplete!"; return None`,
`else: return map(float, values)`.  The float values themselves are
abstracted: a successful `map(float, values)` is represented by `some` of the
very tokens that parsed, a token on which `float` raises is `ValueError`. -/
def imu_decode (values : List String) : PyResult (Option (List String)) :=
  if values.length ≠ 12 then .val none
  else if values.all isPyFloatTok then .val (some values)
  else .exn .valueError

/-- `get_imu_data(self)`: `values = self.execute_array('i')`, then arity
check and float decoding as in `imu_decode`. -/
def get_imu_data (o : Outcome) : OpTrace (Option (List String)) :=
  let t := execute_array "i" 5 o
  ⟨match t.result with
    | .val values => imu_decode values
    | .exn e => .exn e,
   t.lockedAfter, t.writes, t.reads⟩

/-- `analog_read(self, pin)`:
`try: return int(self.execute('a %d' %pin)) except: return None` — the bare
`except` also swallows serial exceptions, so the method itself never raises. -/
def analog_read (pin : Int) (o : Outcome) : OpTrace (Option Int) :=
  let t := execute ("a " ++ toString pin) 5 o
  ⟨.val (match t.result with
    | .val v => pyInt v
    | .exn _ => none),
   t.lockedAfter, t.writes, t.reads⟩

/-- `digital_read(self, pin)`:
`try: return int(self.execute('d %d' %pin)) except: return None`. -/
def digital_read (pin : Int) (o : Outcome) : OpTrace (Option Int) :=
  let t := execute ("d " ++ toString pin) 5 o
  ⟨.val (match t.result with
    | .val v => pyInt v
    | .exn _ => none),
   t.lockedAfter, t.writes, t.reads⟩

/-- `get_baud(self)`:
`try: return int(self.execute('b', max_attempts=5)) except: return None`. -/
def get_baud (o : Outcome) : OpTrace (Option Int) :=
  let t := execute "b" 5 o
  ⟨.val (match t.result with
    | .val v => pyInt v
    | .exn _ => none),
   t.lockedAfter, t.writes, t.reads⟩

/-- The Python value `get_baud` returns (it never raises). -/
def get_baud_val (o : Outcome) : Option Int :=
  match (get_baud o).result with
  | .val v => v
  | .exn _ => none

/-- How `connect` ends, seen from its caller: it returns after a successful
verification, terminates the process via `os._exit`, raises to the caller,
or never returns at all (`deadlocked`: blocked forever inside
`mutex.acquire()`). -/
inductive ConnectOutcome where
  | connected
  | exited (code : Nat)
  | raised
  | deadlocked
deriving DecidableEq

/-- Observable trace of `connect`: how it ended, the number of
`time.sleep(self.timeout)` waits in the verification phase, the number of
`get_baud` exchanges that ran to completion, and whether the driver closed
the transport. -/
structure ConnectTrace where
  outcome : ConnectOutcome
  sleeps : Nat
  baudChecks : Nat
  closedByDriver : Bool
deriving DecidableEq

/-- Verification phase of `Arduino.connect(self)`, parametrised by the
transport outcomes `o1`, `o2` of the (at most two) `get_baud` exchanges:
`test = self.get_baud(); if test != self.baudrate:
time.sleep(self.timeout); test = self.get_baud();
if test != self.baudrate: raise SerialException` — and the surrounding
`try/except SerialException` prints diagnostics and calls `os._exit(1)`.
The mutex is threaded through the two exchanges: when the first exchange
raises inside the serial layer (`writeExn`/`readExn`), `get_baud`'s bare
`except:` swallows the exception and returns `None`, but `execute` left
`self.mutex` held; `None != self.baudrate`, so after the sleep the retry's
`execute` calls `mutex.acquire()` on the non-reentrant lock still held by
this very thread and blocks forever — the second exchange never starts and
`connect` never returns.  The success path prints and returns; `connect`
never calls `close`, so `closedByDriver` is always `false`.  (The preceding
double `serial.Serial` open of the transport is external; a
`SerialException` it raises is caught by the same handler and also ends in
`os._exit(1)`.) -/
def connect (baudrate : Int) (o1 o2 : Outcome) : ConnectTrace :=
  if get_baud_val o1 = some baudrate then ⟨.connected, 0, 1, false⟩
  else if (get_baud o1).lockedAfter then ⟨.deadlocked, 1, 1, false⟩
  else if get_baud_val o2 = some baudrate then ⟨.connected, 1, 2, false⟩
  else ⟨.exited 1, 1, 2, false⟩

/-- `self.PID_RATE = 30` (fixed property of the Arduino PID controller). -/
def PID_RATE : Nat := 30

/-- `self.PID_INTERVAL = 1000 / 30` — Python 2 integer division of the two
int literals, i.e. `33`. -/
def PID_INTERVAL : Nat := 1000 / 30

/-- The exact rational value of the IEEE-754 double `math.pi`. -/
def pyPi : ℚ := 884279719003555 / 281474976710656

/-- Python `int(x)` on a float/rational: truncation toward zero. -/
def pyTrunc (q : ℚ) : Int :=
  if q < 0 then -((q.num.natAbs / q.den : Nat) : Int)
  else ((q.num.natAbs / q.den : Nat) : Int)

/-- The three instance attributes `drive_m_per_s` reads that `__init__`
(which only sets `PID_RATE`, `PID_INTERVAL`, `port`, `baudrate`, `timeout`,
`encoder_count`, `writeTimeout` and `mutex`) never initializes; `none` means
the attribute is absent and looking it up raises `AttributeError`. -/
structure Params where
  wheel_diameter : Option ℚ
  encoder_resolution : Option ℚ
  gear_reduction : Option ℚ

/-- The attribute state right after `Arduino.__init__`: none of
`wheel_diameter`, `encoder_resolution`, `gear_reduction` is set. -/
def initParams : Params :=
  ⟨none, none, none⟩

/-- `drive_m_per_s(self, right, left)`:
`left_revs_per_second = float(left) / (self.wheel_diameter * PI)` (likewise
right), then
`left_ticks_per_loop = int(left_revs_per_second * self.encoder_resolution *
self.PID_INTERVAL * self.gear_reduction)` (likewise right), then
`self.drive(right_ticks_per_loop, left_ticks_per_loop)` with no `return`
(the method returns `None`).  Attribute lookups happen in source order, so a
missing attribute raises `AttributeError` before anything is written. -/
def drive_m_per_s (p : Params) (right left : ℚ) (o : Outcome) : OpTrace PyVal :=
  match p.wheel_diameter with
  | none => ⟨.exn .attributeError, false, [], 0⟩
  | some wd =>
    match p.encoder_resolution with
    | none => ⟨.exn .attributeError, false, [], 0⟩
    | some res =>
      match p.gear_reduction with
      | none => ⟨.exn .attributeError, false, [], 0⟩
      | some gear =>
        let left_revs_per_second : ℚ := left / (wd * pyPi)
        let right_revs_per_second : ℚ := right / (wd * pyPi)
        let left_ticks_per_loop : Int :=
          pyTrunc (left_revs_per_second * res * (PID_INTERVAL : ℚ) * gear)
        let right_ticks_per_loop : Int :=
          pyTrunc (right_revs_per_second * res * (PID_INTERVAL : ℚ) * gear)
        let t := drive right_ticks_per_loop left_ticks_per_loop o
        ⟨match t.result with
          | .val _ => .val .vNone
          | .exn e => .exn e,
         t.lockedAfter, t.writes, t.reads⟩

/-- Truncation toward zero agrees with the floor on nonnegative rationals. -/
lemma pyTrunc_nonneg (q : ℚ) (h : 0 ≤ q) : pyTrunc q = ⌊q⌋ := by
  have hn : 0 ≤ q.num := Rat.num_nonneg.mpr h
  rw [pyTrunc, if_neg (not_lt.mpr h), Rat.floor_def, Int.natCast_div]
  congr 1
  exact Int.natAbs_of_nonneg hn

/-- C1: the claim says `execute` releases `self.mutex` on every outcome of
the exchange, including an exception raised during the write or the read.
Evaluating the embedded code: on the normal-reply and read-timeout outcomes
the lock is indeed released, but when the write or the read raises, `execute`
has no `try/finally` and returns control to the caller (by propagating the
exception) with the mutex still held, so a subsequent call can no longer
acquire it.  This refutes the exception half of the claim. -/
theorem C1_lock_eval :
    (execute "e" 5 .writeExn).lockedAfter = true ∧
    (execute "e" 5 .readExn).lockedAfter = true ∧
    (execute "e" 5 (.reply "OK\n")).lockedAfter = false ∧
    (execute "e" 5 (.timeout "")).lockedAfter = false := by
  exact ⟨rfl, rfl, rfl, rfl⟩

/-- C2 (counterexample): `update_pid` is an ack-type operation (it sends
`u Kp:Kd:Ki:Ko` and the firmware acknowledges), yet on the reply `OK` it
returns Python `None`, not `True`: the claim "returns true if and only if the
transport replies with the exact literal token OK" fails for it (and for
`stop`, which likewise discards the ack of `m 0 0`). -/
theorem C2_counterexample :
    (update_pid 30 10 0 50 (.reply "OK")).writes = ["u 30:10:0:50\r"] ∧
    (update_pid 30 10 0 50 (.reply "OK")).result = .val .vNone ∧
    (stop (.reply "OK")).writes = ["m 0 0\r"] ∧
    (stop (.reply "OK")).result = .val .vNone ∧
    PyVal.vNone ≠ PyVal.vBool true := by
  refine ⟨rfl, rfl, rfl, rfl, by decide⟩

/-- C2 (amended): for every reply line and all integer arguments, each
ack-type operation sends exactly one command line with the correct verb and
arguments; the eleven operations that return the acknowledgement
(`reset_encoders`, `drive`, `analog_pin_mode`, `analog_write`,
`digital_pin_mode`, `digital_write`, `config_servo`, `servo_write`,
`set_servo_delay`, `attach_servo`, `detach_servo`) return `True` iff the
stripped reply is the literal token `OK`; `stop` and `update_pid` send the
correct single command but discard the acknowledgement and return `None`. -/
theorem C2_amended (line : String)
    (r l pin mode value sid pos dly step Kp Kd Ki Ko : Int) :
    reset_encoders (.reply line) =
      ⟨.val (.vBool (stripNL line == "OK")), false, ["r" ++ "\r"], 1⟩ ∧
    drive r l (.reply line) =
      ⟨.val (.vBool (stripNL line == "OK")), false,
       ["m " ++ toString r ++ " " ++ toString l ++ "\r"], 1⟩ ∧
    analog_pin_mode pin mode (.reply line) =
      ⟨.val (.vBool (stripNL line == "OK")), false,
       ["c A" ++ toString pin ++ " " ++ toString mode ++ "\r"], 1⟩ ∧
    analog_write pin value (.reply line) =
      ⟨.val (.vBool (stripNL line == "OK")), false,
       ["x " ++ toString pin ++ " " ++ toString value ++ "\r"], 1⟩ ∧
    digital_pin_mode pin mode (.reply line) =
      ⟨.val (.vBool (stripNL line == "OK")), false,
       ["c " ++ toString pin ++ " " ++ toString mode ++ "\r"], 1⟩ ∧
    digital_write pin value (.reply line) =
      ⟨.val (.vBool (stripNL line == "OK")), false,
       ["w " ++ toString pin ++ " " ++ toString value ++ "\r"], 1⟩ ∧
    config_servo pin step (.reply line) =
      ⟨.val (.vBool (stripNL line == "OK")), false,
       ["j " ++ toString pin ++ " " ++ toString step ++ "\r"], 1⟩ ∧
    servo_write sid pos (.reply line) =
      ⟨.val (.vBool (stripNL line == "OK")), false,
       ["s " ++ toString sid ++ " " ++ toString pos ++ "\r"], 1⟩ ∧
    set_servo_delay sid dly (.reply line) =
      ⟨.val (.vBool (stripNL line == "OK")), false,
       ["v " ++ toString sid ++ " " ++ toString dly ++ "\r"], 1⟩ ∧
    attach_servo sid (.reply line) =
      ⟨.val (.vBool (stripNL line == "OK")), false,
       ["y " ++ toString sid ++ "\r"], 1⟩ ∧
    detach_servo sid (.reply line) =
      ⟨.val (.vBool (stripNL line == "OK")), false,
       ["z " ++ toString sid ++ "\r"], 1⟩ ∧
    stop (.reply line) = ⟨.val .vNone, false, ["m 0 0" ++ "\r"], 1⟩ ∧
    update_pid Kp Kd Ki Ko (.reply line) =
      ⟨.val .vNone, false,
       ["u " ++ toString Kp ++ ":" ++ toString Kd ++ ":" ++ toString Ki
        ++ ":" ++ toString Ko ++ "\r"], 1⟩ := by
  exact ⟨rfl, rfl, rfl, rfl, rfl, rfl, rfl, rfl, rfl, rfl, rfl, rfl, rfl⟩

/-- C9: `execute`, `execute_array` and `execute_ack` ignore their
`max_attempts` parameter entirely — for every command, every transport
outcome and any two values of the parameter the results are identical — and
on a reply they perform exactly one write and one read. -/
theorem C9_attempts_ignored (cmd : String) (o : Outcome) (a b : Nat) :
    execute cmd a o = execute cmd b o ∧
    execute_array cmd a o = execute_array cmd b o ∧
    execute_ack cmd a o = execute_ack cmd b o ∧
    (∀ line : String,
      (execute cmd a (.reply line)).writes = [cmd ++ "\r"] ∧
      (execute cmd a (.reply line)).reads = 1) := by
  refine ⟨?_, ?_, ?_, fun line => ⟨rfl, rfl⟩⟩ <;> cases o <;> rfl

/-- C3 (counterexample): when both baud checks mismatch, `connect` does not
surface an error to its caller — it catches the internal `SerialException`
and terminates the whole process via `os._exit(1)` — and it never closes the
transport it opened (the trace records no `close` by the driver). -/
theorem C3_counterexample :
    connect 57600 (.reply "1200\n") (.reply "1200\n") = ⟨.exited 1, 1, 2, false⟩ ∧
    ConnectOutcome.exited 1 ≠ ConnectOutcome.raised := by
  refine ⟨by decide, by decide⟩

/-- C3 (amended): if the first baud verification matches, `connect` succeeds
with a single check and no wait.  When the first exchange runs to completion
(a reply or a read timeout, so the mutex was released: exactly the
mismatching-or-unparseable-value case the claim is about) but its value does
not match, `connect` waits one timeout interval and retries exactly once,
succeeding if the retry matches; if both attempts fail it does not raise to
the caller but terminates the process with exit status 1 via `os._exit`,
without the driver closing the transport it opened.  When instead the first
exchange raises inside the serial layer, the bare `except:` in `get_baud`
yields `None` but the mutex stays held, and the retry blocks forever in
`mutex.acquire()`: `connect` deadlocks after the one sleep with the second
exchange never starting. -/
theorem C3_amended (b : Int) (o1 o2 : Outcome) :
    (get_baud_val o1 = some b → connect b o1 o2 = ⟨.connected, 0, 1, false⟩) ∧
    ((get_baud o1).lockedAfter = false → get_baud_val o1 ≠ some b →
      get_baud_val o2 = some b → connect b o1 o2 = ⟨.connected, 1, 2, false⟩) ∧
    ((get_baud o1).lockedAfter = false → get_baud_val o1 ≠ some b →
      get_baud_val o2 ≠ some b →
      connect b o1 o2 = ⟨.exited 1, 1, 2, false⟩ ∧
      (connect b o1 o2).closedByDriver = false) ∧
    ((get_baud o1).lockedAfter = true →
      connect b o1 o2 = ⟨.deadlocked, 1, 1, false⟩) := by
  refine ⟨fun h1 => ?_, fun hl h1 h2 => ?_, fun hl h1 h2 => ?_, fun hl => ?_⟩
  · simp [connect, h1]
  · simp [connect, hl, h1, h2]
  · simp [connect, hl, h1, h2]
  · have h1 : get_baud_val o1 ≠ some b := by
      cases o1 <;> simp_all [get_baud_val, get_baud, execute]
    simp [connect, hl, h1]

/-- Witness for C3 (amended) at concrete transport outcomes: first check
matching, retry matching after a completed first mismatch, a double
mismatch, and a first exchange that raises (deadlocked retry). -/
theorem C3_amended_witness :
    connect 57600 (.reply "57600\n") (.reply "x") = ⟨.connected, 0, 1, false⟩ ∧
    connect 57600 (.reply "9600\n") (.reply "57600\n") = ⟨.connected, 1, 2, false⟩ ∧
    connect 57600 (.reply "9600\n") (.reply "1200\n") = ⟨.exited 1, 1, 2, false⟩ ∧
    connect 57600 .writeExn (.reply "57600\n") = ⟨.deadlocked, 1, 1, false⟩ :=
  ⟨(C3_amended 57600 (.reply "57600\n") (.reply "x")).1 (by decide),
   (C3_amended 57600 (.reply "9600\n") (.reply "57600\n")).2.1
     (by decide) (by decide) (by decide),
   ((C3_amended 57600 (.reply "9600\n") (.reply "1200\n")).2.2.1
     (by decide) (by decide) (by decide)).1,
   (C3_amended 57600 .writeExn (.reply "57600\n")).2.2.2 (by decide)⟩

/-- C4 (counterexample): a read that times out is not reported as a distinct
timeout condition.  pyserial's `readline` returns the partial data received
(the empty string when nothing arrived), so `execute` on a timeout returns
exactly the same trace as on a genuine empty reply — the garbage value `""`
propagates — and downstream the timeout is folded into the wrong-arity error
(`get_encoder_counts` raises the same `SerialException` as for a one-token
reply) and into the parse-failure result (`analog_read` returns `None`, as
for an unparseable reply). -/
theorem C4_counterexample :
    execute "a 0" 5 (.timeout "") = execute "a 0" 5 (.reply "") ∧
    (execute "a 0" 5 (.timeout "")).result = .val "" ∧
    (get_encoder_counts (.timeout "")).result = .exn .serialExn ∧
    (get_encoder_counts (.reply "7")).result = .exn .serialExn ∧
    (analog_read 0 (.timeout "")).result = .val none ∧
    (analog_read 0 (.reply "zz")).result = .val none := by
  refine ⟨rfl, rfl, by decide, by decide, by decide, by decide⟩

/-- C4 (amended): a read timeout never hangs forever and never corrupts the
lock — `execute` returns within the configured window with the partial line
(stripped), the mutex released and exactly one write performed — but the
timeout is indistinguishable from a normal reply of the same text, and is
folded downstream into the arity error of `get_encoder_counts` and the
`None` parse-failure result of `analog_read` rather than being reported as a
distinct timeout condition. -/
theorem C4_amended (cmd : String) (n : Nat) (part : String) :
    execute cmd n (.timeout part) =
      ⟨.val (stripNL part), false, [cmd ++ "\r"], 1⟩ ∧
    execute cmd n (.timeout part) = execute cmd n (.reply part) ∧
    (get_encoder_counts (.timeout "")).result = .exn .serialExn ∧
    (analog_read 0 (.timeout "")).result = .val none := by
  refine ⟨rfl, rfl, by decide, by decide⟩

/-- C8: for every reply line that does not parse as the expected integer,
the scalar-parse operations `analog_read`, `digital_read` and `get_baud`
return the explicit no-value result `None` instead of propagating the parse
exception (their bare `except:` swallows it). -/
theorem C8_parse_none (pin : Int) (line : String)
    (h : pyInt (stripNL line) = none) :
    (analog_read pin (.reply line)).result = .val none ∧
    (digital_read pin (.reply line)).result = .val none ∧
    (get_baud (.reply line)).result = .val none := by
  refine ⟨?_, ?_, ?_⟩ <;>
    · show PyResult.val (pyInt (stripNL line)) = PyResult.val none
      rw [h]

/-- Witness for C8 at the unparseable reply `xyz`. -/
theorem C8_witness :
    pyInt (stripNL "xyz") = none ∧
    (analog_read 0 (.reply "xyz")).result = .val none :=
  ⟨by decide, (C8_parse_none 0 "xyz" (by decide)).1⟩

/-- A successfully decoded integer list has one entry per token. -/
lemma mapPyInt_length :
    ∀ (ts : List String) (v : List Int), mapPyInt ts = some v → v.length = ts.length := by
  intro ts
  induction ts with
  | nil =>
    intro v h
    simp only [mapPyInt, Option.some.injEq] at h
    subst h
    rfl
  | cons t ts ih =>
    intro v h
    unfold mapPyInt at h
    cases h1 : pyInt t <;> rw [h1] at h
    · simp at h
    · cases h2 : mapPyInt ts <;> rw [h2] at h
      · simp at h
      · simp only [Option.some.injEq] at h
        subst h
        simp [ih _ h2]

/-- `enc_decode` yields a value exactly when the arity check and every
integer parse succeed. -/
lemma enc_decode_val_iff (values : List String) (v : List Int) :
    enc_decode values = .val v ↔ values.length = 2 ∧ mapPyInt values = some v := by
  unfold enc_decode
  by_cases h : values.length = 2
  · rw [if_neg (by simp [h])]
    cases hm : mapPyInt values <;> simp [hm, h]
  · rw [if_pos h]
    simp [h]

/-- C5: `get_encoder_counts` returns a pair of integers if and only if the
reply splits into exactly two integer-parseable tokens; any other token
count yields the distinct protocol error (`SerialException` raised), and a
returned value always has exactly two entries — never a partial result. -/
theorem C5_enc_pair_iff (line : String) :
    ((∃ a b : Int, (get_encoder_counts (.reply line)).result = .val [a, b]) ↔
      (∃ t1 t2 : String, pySplit (stripNL line) = [t1, t2] ∧
        (pyInt t1).isSome ∧ (pyInt t2).isSome)) ∧
    ((pySplit (stripNL line)).length ≠ 2 →
      (get_encoder_counts (.reply line)).result = .exn .serialExn) ∧
    (∀ v : List Int,
      (get_encoder_counts (.reply line)).result = .val v → v.length = 2) := by
  have hres : (get_encoder_counts (.reply line)).result =
      enc_decode (pySplit (stripNL line)) := rfl
  rw [hres]
  generalize pySplit (stripNL line) = ts
  refine ⟨⟨fun h => ?_, fun h => ?_⟩, fun h => ?_, fun v hv => ?_⟩
  · obtain ⟨a, b, hab⟩ := h
    obtain ⟨hlen, hmap⟩ := (enc_decode_val_iff ts [a, b]).mp hab
    obtain ⟨t1, t2, hts⟩ := List.length_eq_two.mp hlen
    subst hts
    refine ⟨t1, t2, rfl, ?_, ?_⟩ <;>
    · unfold mapPyInt mapPyInt at hmap
      cases h1 : pyInt t1 <;> rw [h1] at hmap <;>
        cases h2 : pyInt t2 <;> rw [h2] at hmap <;> simp_all
  · obtain ⟨t1, t2, hts, h1, h2⟩ := h
    subst hts
    obtain ⟨i1, hi1⟩ := Option.isSome_iff_exists.mp h1
    obtain ⟨i2, hi2⟩ := Option.isSome_iff_exists.mp h2
    exact ⟨i1, i2, (enc_decode_val_iff [t1, t2] [i1, i2]).mpr
      ⟨rfl, by simp [mapPyInt, hi1, hi2]⟩⟩
  · unfold enc_decode
    rw [if_pos h]
  · obtain ⟨hlen, hmap⟩ := (enc_decode_val_iff ts v).mp hv
    rw [mapPyInt_length ts v hmap, hlen]

/-- Witness for C5: a two-integer reply decodes to the pair, a three-token
reply yields the protocol error, and the returned pair has length two. -/
theorem C5_witness :
    (get_encoder_counts (.reply "10 20\n")).result = .val [10, 20] ∧
    (get_encoder_counts (.reply "1 2 3")).result = .exn .serialExn ∧
    ([10, 20] : List Int).length = 2 :=
  ⟨by decide, (C5_enc_pair_iff "1 2 3").2.1 (by decide),
   (C5_enc_pair_iff "10 20\n").2.2 [10, 20] (by decide)⟩

/-- C6 (counterexample): a reply with exactly 12 tokens need not produce 12
floats — on `x x x x x x x x x x x x` the arity check passes but `float`
raises `ValueError`, which propagates; so "returns a list of 12 floats if
and only if the reply has exactly 12 whitespace-separated tokens" fails in
the only-if-to-if direction. -/
theorem C6_counterexample :
    (pySplit (stripNL "x x x x x x x x x x x x")).length = 12 ∧
    (get_imu_data (.reply "x x x x x x x x x x x x")).result = .exn .valueError ∧
    ∀ v : List String,
      PyResult.exn (α := Option (List String)) .valueError ≠ .val (some v) := by
  refine ⟨by decide, by decide, fun v => by simp⟩

/-- C6 (amended): `get_imu_data` returns the full 12-value sample iff the
reply has exactly 12 tokens and each parses as a float; any other token
count yields the explicit incomplete result `None`; a 12-token reply with an
unparseable token propagates the parse exception; and a returned sample
always has exactly 12 entries — never a partial mapping. -/
theorem C6_amended (line : String) :
    ((pySplit (stripNL line)).length ≠ 12 →
      (get_imu_data (.reply line)).result = .val none) ∧
    ((pySplit (stripNL line)).length = 12 →
      (pySplit (stripNL line)).all isPyFloatTok = true →
      (get_imu_data (.reply line)).result = .val (some (pySplit (stripNL line)))) ∧
    ((pySplit (stripNL line)).length = 12 →
      (pySplit (stripNL line)).all isPyFloatTok = false →
      (get_imu_data (.reply line)).result = .exn .valueError) ∧
    (∀ v : List String,
      (get_imu_data (.reply line)).result = .val (some v) → v.length = 12) := by
  have hres : (get_imu_data (.reply line)).result =
      imu_decode (pySplit (stripNL line)) := rfl
  rw [hres]
  generalize pySplit (stripNL line) = ts
  refine ⟨fun h => ?_, fun h ha => ?_, fun h ha => ?_, fun v hv => ?_⟩
  · unfold imu_decode
    rw [if_pos h]
  · unfold imu_decode
    rw [if_neg (by simp [h]), if_pos ha]
  · unfold imu_decode
    rw [if_neg (by simp [h]), if_neg (by simp [ha])]
  · unfold imu_decode at hv
    by_cases h : ts.length = 12
    · by_cases ha : ts.all isPyFloatTok
      · rw [if_neg (by simp [h]), if_pos ha] at hv
        simp only [PyResult.val.injEq, Option.some.injEq] at hv
        rw [← hv, h]
      · rw [if_neg (by simp [h]), if_neg ha] at hv
        simp at hv
    · rw [if_pos h] at hv
      simp at hv

/-- Witness for C6 (amended): an 11-token reply is reported incomplete, a
12-float reply returns the full sample, and the sample has 12 entries. -/
theorem C6_amended_witness :
    (get_imu_data (.reply "1 2 3 4 5 6 7 8 9 10 11")).result = .val none ∧
    (get_imu_data (.reply "1 2 3 4 5 6 7 8 9 10 11 12")).result =
      .val (some (pySplit (stripNL "1 2 3 4 5 6 7 8 9 10 11 12"))) ∧
    (pySplit (stripNL "1 2 3 4 5 6 7 8 9 10 11 12")).length = 12 :=
  ⟨(C6_amended "1 2 3 4 5 6 7 8 9 10 11").1 (by decide),
   (C6_amended "1 2 3 4 5 6 7 8 9 10 11 12").2.1 (by decide) (by decide),
   (C6_amended "1 2 3 4 5 6 7 8 9 10 11 12").2.2.2
     (pySplit (stripNL "1 2 3 4 5 6 7 8 9 10 11 12"))
     ((C6_amended "1 2 3 4 5 6 7 8 9 10 11 12").2.1 (by decide) (by decide))⟩

/-- C7: `PID_INTERVAL` is the Python 2 integer quotient `1000 / 30 = 33`,
and for all parameters `drive_m_per_s` computes each side's ticks per PID
interval as the truncation toward zero of
`speed / (wheel_diameter * pi) * encoder_resolution * 33 * gear_reduction`
and delegates them to the tick-based `drive` command; with speeds 1.0 m/s,
wheel diameter 0.2 m, encoder resolution 720 and gear reduction 1.0 this
sends exactly `m 37815 37815` (the formula value 37815.214… truncated). -/
theorem C7_ticks_formula :
    PID_INTERVAL = 1000 / 30 ∧
    PID_INTERVAL = 33 ∧
    (∀ (d res gear right left : ℚ) (o : Outcome),
      (drive_m_per_s ⟨some d, some res, some gear⟩ right left o).writes =
        (drive (pyTrunc (right / (d * pyPi) * res * 33 * gear))
               (pyTrunc (left / (d * pyPi) * res * 33 * gear)) o).writes) ∧
    drive_m_per_s ⟨some (1/5), some 720, some 1⟩ 1 1 (.reply "OK\n") =
      ⟨.val .vNone, false, ["m 37815 37815\r"], 1⟩ := by
  have hcast : ((PID_INTERVAL : Nat) : ℚ) = 33 := by norm_num [PID_INTERVAL]
  refine ⟨rfl, rfl, fun d res gear right left o => ?_, ?_⟩
  · simp only [drive_m_per_s, hcast]
  · have hq : pyTrunc ((1 : ℚ) / ((1 / 5 : ℚ) * pyPi) * 720 *
        ((PID_INTERVAL : Nat) : ℚ) * 1) = 37815 := by
      rw [pyTrunc_nonneg _ (by rw [hcast]; norm_num [pyPi]), Int.floor_eq_iff]
      rw [hcast]
      constructor
      · norm_num [pyPi]
      · norm_num [pyPi]
    simp only [drive_m_per_s, hq]
    rfl

/-- C10 (implicit): `__init__` sets none of `wheel_diameter`,
`encoder_resolution`, `gear_reduction`; whenever any of the three is absent,
`drive_m_per_s` raises `AttributeError` before any command is written, while
the tick-based `drive` needs none of them and works on a fresh instance. -/
theorem C10_missing_attrs :
    (initParams.wheel_diameter = none ∧ initParams.encoder_resolution = none ∧
      initParams.gear_reduction = none) ∧
    (∀ (p : Params) (right left : ℚ) (o : Outcome),
      (p.wheel_diameter = none ∨ p.encoder_resolution = none ∨
        p.gear_reduction = none) →
      drive_m_per_s p right left o = ⟨.exn .attributeError, false, [], 0⟩) ∧
    (∀ (right left : Int) (line : String),
      (drive right left (.reply line)).result =
        .val (.vBool (stripNL line == "OK")) ∧
      (drive right left (.reply line)).writes =
        ["m " ++ toString right ++ " " ++ toString left ++ "\r"]) := by
  refine ⟨⟨rfl, rfl, rfl⟩, ?_, fun r l line => ⟨rfl, rfl⟩⟩
  rintro ⟨wd, er, gr⟩ r l o (h | h | h)
  · cases wd with
    | none => rfl
    | some x => exact absurd h (Option.some_ne_none x)
  · cases er with
    | none => cases wd <;> rfl
    | some x => exact absurd h (Option.some_ne_none x)
  · cases gr with
    | none => cases wd <;> cases er <;> rfl
    | some x => exact absurd h (Option.some_ne_none x)

/-- Witness for C10 on a freshly constructed instance: `drive_m_per_s`
raises `AttributeError` with no serial write, while `drive` succeeds. -/
theorem C10_witness :
    drive_m_per_s initParams 1 1 (.reply "OK\n") =
      ⟨.exn .attributeError, false, [], 0⟩ ∧
    (drive 10 10 (.reply "OK\n")).result = .val (.vBool true) :=
  ⟨C10_missing_attrs.2.1 initParams 1 1 (.reply "OK\n") (Or.inl rfl),
   (C10_missing_attrs.2.2 10 10 "OK\n").1⟩

end Arduino
